import Mathlib

/-!
Verification of the conversational memory subsystem of the
`get-started-with-ai-agents` repository: the keyword-overlap
`MemoryManager` (src/src/api/memory_manager.py) and the
`VectorMemoryManager` (src/src/api/vector_memory_manager.py), shallowly
embedded in Lean over the per-user slice of the storage directory.

Modelling conventions:
* Timestamps are natural numbers (days since an epoch).  All timestamp
  strings written by one manager come from `datetime.now().isoformat()`,
  and such strings compare lexicographically the way the instants they
  denote compare chronologically, so the string comparison in the lexical
  retention filter is modelled by the numeric order.
* Python floats appearing as similarity scores are modelled as exact
  rational numbers.
* Storage is modelled as the current contents of the per-user documents;
  a write either replaces a whole document or fails leaving it unchanged.
  Whether a given read or write succeeds is an explicit boolean argument
  where a claim depends on failure behaviour.
* External collaborators (scikit-learn TF-IDF fitting and transforming,
  `strftime` date rendering, float rendering) are abstracted as arguments.
-/

/-- Python `text.split()` with no separator: split on whitespace runs and
drop the empty pieces.  Working over `List Char` keeps every operation
kernel-reducible. -/
def pySplit (s : String) : List (List Char) :=
  (s.toList.splitOnP Char.isWhitespace).filter (fun w => w ≠ [])

/-- Python `text.strip()`: the text without its leading and trailing
whitespace. -/
def pyStrip (s : String) : String :=
  String.mk
    (((s.toList.dropWhile Char.isWhitespace).reverse.dropWhile
        Char.isWhitespace).reverse)

/-- Python `text.lower().split()` collected into a `set`, as both managers
build word sets for scoring. -/
def wordSet (s : String) : Finset (List Char) :=
  (pySplit (String.mk (s.toList.map Char.toLower))).toFinset

/-- Jaccard similarity as the specification words it for the lexical
scorer: intersection size over union size of the word set of the query and
the word set of the combined record text.  This definition follows the
SPEC text and is compared against the definitions taken from the source. -/
def jaccardSpec (query text : String) : ℚ :=
  (((wordSet query ∩ wordSet text).card : ℚ)) /
    (((wordSet query ∪ wordSet text).card : ℚ))

namespace MemoryManager

/-- Constructor configuration of `MemoryManager.__init__`
(memory_manager.py:28-45). -/
structure Config where
  max_memory_items : Nat := 50
  memory_retention_days : Nat := 30
deriving DecidableEq

/-- One stored memory item (the dict built at memory_manager.py:89-95). -/
structure MemoryItem where
  timestamp : Nat
  thread_id : String
  query : String
  response : String
  metadata : List (String × String) := []
deriving DecidableEq

/-- The user profile dict (memory_manager.py:182-189). -/
structure UserProfile where
  user_id : String
  created_at : Nat
  last_interaction : Option Nat
  total_interactions : Nat
  preferences : List (String × String)
  topics_of_interest : List String
deriving DecidableEq

/-- Default profile synthesized when no profile file exists
(memory_manager.py:182-189). -/
def defaultProfile (user_id : String) (now : Nat) : UserProfile :=
  { user_id := user_id
    created_at := now
    last_interaction := none
    total_interactions := 0
    preferences := []
    topics_of_interest := [] }

/-- The per-user slice of the storage directory: the contents of the
memory file (a missing file reads as the empty list, exactly as the code
treats it) and the profile file (`none` when the file does not exist). -/
structure UserStore where
  memories : List MemoryItem
  profile : Option UserProfile
deriving DecidableEq

/-- The store of a user nothing has been written for. -/
def emptyStore : UserStore := { memories := [], profile := none }

/-- `MemoryManager.store_conversation_memory` (memory_manager.py:61-114).
The Python method returns `None`; the updated store is the result here.
The response is truncated to 1000 characters; the new item is inserted at
the head; the list is truncated to `max_memory_items`; items older than
the retention cutoff are dropped.  The profile is not touched. -/
def store_conversation_memory (cfg : Config) (now : Nat)
    (thread_id query response : String) (metadata : List (String × String))
    (st : UserStore) : UserStore :=
  let item : MemoryItem :=
    { timestamp := now
      thread_id := thread_id
      query := query
      response := String.mk (response.toList.take 1000)
      metadata := metadata }
  let memories := item :: st.memories
  let memories :=
    if cfg.max_memory_items < memories.length then
      memories.take cfg.max_memory_items
    else memories
  let cutoff := now - cfg.memory_retention_days
  let memories := memories.filter (fun m => cutoff ≤ m.timestamp)
  { st with memories := memories }

/-- The relevance score of `get_relevant_memories`
(memory_manager.py:143-153): the SIZE OF THE INTERSECTION of the query
word set with the word set of the stored QUERY text alone (`overlap`);
no union division appears in the code. -/
def score (query : String) (m : MemoryItem) : Nat :=
  (wordSet query ∩ wordSet m.query).card

/-- The scored, stably sorted, truncated list `get_relevant_memories`
builds (memory_manager.py:143-159).  Python `list.sort(key, reverse=True)`
is a stable descending sort; `List.insertionSort` with the relation
`b.2 ≤ a.2` performs the same stable descending sort by score. -/
def rank (query : String) (memories : List MemoryItem) (max_results : Nat) :
    List (MemoryItem × Nat) :=
  ((memories.filterMap (fun m =>
      let overlap := score query m
      if 0 < overlap then some (m, overlap) else none)).insertionSort
    (fun a b => b.2 ≤ a.2)).take max_results

/-- `MemoryManager.get_relevant_memories` (memory_manager.py:116-159):
the ranked records without their scores. -/
def get_relevant_memories (query : String) (memories : List MemoryItem)
    (max_results : Nat) : List MemoryItem :=
  (rank query memories max_results).map Prod.fst

/-- `MemoryManager.get_user_profile` (memory_manager.py:161-197): return
the stored profile if the file exists; otherwise build the default
profile, WRITE it to the profile file, and return it.  Result: the
returned profile and the store afterwards. -/
def get_user_profile (user_id : String) (now : Nat) (st : UserStore) :
    UserProfile × UserStore :=
  match st.profile with
  | some p => (p, st)
  | none =>
      let p := defaultProfile user_id now
      (p, { st with profile := some p })

/-- The `interaction_data` dict of `update_user_profile`: which of the two
recognised keys are present (`topic` carries the Python truthiness test
separately: an empty string is falsy). -/
structure InteractionData where
  preferences : Option (List (String × String))
  topic : Option String
deriving DecidableEq

/-- Python dict assignment `d[key] = value`: overwrite an existing key in
place, append a new key (dict insertion order preserved). -/
def dictSet (key value : String) (ps : List (String × String)) :
    List (String × String) :=
  if ps.any (fun p => p.1 == key) then
    ps.map (fun p => if p.1 == key then (key, value) else p)
  else ps ++ [(key, value)]

/-- Iterated `d[key] = value` over the items of an update dict
(memory_manager.py:216-218). -/
def dictUpdate (upd ps : List (String × String)) : List (String × String) :=
  upd.foldl (fun acc kv => dictSet kv.1 kv.2 acc) ps

/-- `MemoryManager.update_user_profile` (memory_manager.py:199-232): load
(or create) the profile, set the last-interaction timestamp, increment the
counter, merge preferences if given, append a new truthy topic if given,
save. -/
def update_user_profile (user_id : String) (now : Nat) (d : InteractionData)
    (st : UserStore) : UserStore :=
  let pair := get_user_profile user_id now st
  let profile := pair.1
  let st := pair.2
  let profile :=
    { profile with
      last_interaction := some now
      total_interactions := profile.total_interactions + 1 }
  let profile :=
    match d.preferences with
    | some prefs => { profile with preferences := dictUpdate prefs profile.preferences }
    | none => profile
  let profile :=
    match d.topic with
    | some t =>
        if t = "" then profile
        else if t ∈ profile.topics_of_interest then profile
        else { profile with topics_of_interest := profile.topics_of_interest ++ [t] }
    | none => profile
  { st with profile := some profile }

/-- The numbered memory lines of the history section
(memory_manager.py:271-279): header with date, the stored query, the
response truncated to 200 characters, and a blank separator line. -/
def memoryLines (dateStr : Nat → String) : Nat → List MemoryItem → List String
  | _, [] => []
  | i, m :: ms =>
      ("Memory " ++ toString (i + 1) ++ " (" ++ dateStr m.timestamp ++ "):") ::
      ("User asked: " ++ m.query) ::
      ("You responded: " ++ String.mk (m.response.toList.take 200) ++ "...") ::
      "" :: memoryLines dateStr (i + 1) ms

/-- `MemoryManager.format_context_for_agent` (memory_manager.py:234-281).
`dateStr` abstracts the `strftime` date rendering.  The parts list always
begins with the header line, with no emptiness guard anywhere; the result
is the parts joined by newlines, together with the store afterwards (the
embedded `get_user_profile` call can create the profile file). -/
def format_context_for_agent (dateStr : Nat → String) (user_id : String)
    (now : Nat) (query : String) (st : UserStore) : String × UserStore :=
  let relevant := get_relevant_memories query st.memories 3
  let pair := get_user_profile user_id now st
  let profile := pair.1
  let st := pair.2
  let parts := ["## User Context Information"]
  let parts :=
    if 0 < profile.total_interactions then
      parts ++
        ["### User Profile",
         "- Total interactions: " ++ toString profile.total_interactions] ++
        (if profile.preferences ≠ [] then
          ["- Preferences:"] ++
            profile.preferences.map (fun kv => "  - " ++ kv.1 ++ ": " ++ kv.2)
         else []) ++
        (if profile.topics_of_interest ≠ [] then
          ["- Topics of interest: " ++
            String.intercalate ", " (profile.topics_of_interest.take 5)]
         else [])
    else parts
  let parts :=
    if relevant ≠ [] then
      parts ++ ["\n### Relevant Conversation History"] ++
        memoryLines dateStr 0 relevant
    else parts
  (String.intercalate "\n" parts, st)

end MemoryManager

namespace VectorMemoryManager

/-- Constructor configuration of `VectorMemoryManager.__init__`
(vector_memory_manager.py:22-55).  All three knobs are stored on the
instance; `max_memory_items` and `memory_retention_days` are never read
again anywhere in the class body. -/
structure Config where
  max_memory_items : Nat := 100
  memory_retention_days : Nat := 30
  similarity_threshold : ℚ := mkRat 3 10
deriving DecidableEq

/-- One stored memory item (the dict built at
vector_memory_manager.py:141-150).  The md5 digest of
`user_id + "_" + thread_id + "_" + query` is modelled by that key string
itself (an injective stand-in; no claim depends on the digest value). -/
structure VMemoryItem where
  id : String
  timestamp : Nat
  thread_id : String
  query : String
  response : String
  query_length : Nat
  response_length : Nat
  topics : List String
deriving DecidableEq

/-- The fixed topic taxonomy of `_extract_topics`
(vector_memory_manager.py:288-294), in Python dict insertion order. -/
def topic_keywords : List (String × List String) :=
  [("technical", ["api", "code", "programming", "development", "software"]),
   ("product", ["features", "specifications", "capabilities", "functions"]),
   ("support", ["help", "issue", "problem", "error", "troubleshoot"]),
   ("information", ["what", "how", "when", "where", "why", "explain"]),
   ("configuration", ["setup", "config", "settings", "install", "configure"])]

/-- Python substring containment `kw in text` over character lists: `kw`
is a prefix of some suffix of `text`. -/
def hasSubstr (kw : List Char) : List Char → Bool
  | [] => kw.isEmpty
  | c :: cs => kw.isPrefixOf (c :: cs) || hasSubstr kw cs

/-- `VectorMemoryManager._extract_topics` (vector_memory_manager.py:282-301):
a topic label applies when any of its trigger keywords occurs as a
substring of the lowercased `query + " " + response` text. -/
def extract_topics (query response : String) : List String :=
  let text := (query ++ " " ++ response).toList.map Char.toLower
  (topic_keywords.filter
    (fun tk => tk.2.any (fun kw => hasSubstr kw.toList text))).map Prod.fst

/-- The user profile dict of the vector manager
(vector_memory_manager.py:307-318); `total_memories` and
`avg_similarity_threshold` are the `memory_stats` entries. -/
structure VUserProfile where
  user_id : String
  created_at : Nat
  last_interaction : Option Nat
  total_interactions : Nat
  preferences : List (String × String)
  topics_of_interest : List String
  total_memories : Nat
  avg_similarity_threshold : ℚ
deriving DecidableEq

/-- Default profile (vector_memory_manager.py:307-318). -/
def vDefaultProfile (cfg : Config) (user_id : String) (now : Nat) :
    VUserProfile :=
  { user_id := user_id
    created_at := now
    last_interaction := none
    total_interactions := 0
    preferences := []
    topics_of_interest := []
    total_memories := 0
    avg_similarity_threshold := cfg.similarity_threshold }

/-- The per-user slice of the store: the conversation files in
directory-listing order (thread id with its memories in append order) and
the profile file.  A new conversation file is modelled at the end of the
listing; within one thread the order is exactly append order, which is
what the claims about ordering exercise. -/
structure VUserStore where
  threads : List (String × List VMemoryItem)
  profile : Option VUserProfile
deriving DecidableEq

/-- The store of a user nothing has been written for. -/
def vEmpty : VUserStore := { threads := [], profile := none }

/-- `VectorMemoryManager._load_user_memories` (vector_memory_manager.py:74-94):
concatenate the memories of every conversation file.  The per-instance read
cache is not modelled: it is deleted on every successful write
(vector_memory_manager.py:172-174), so a fresh read sees this list. -/
def load_user_memories (st : VUserStore) : List VMemoryItem :=
  (st.threads.map Prod.snd).flatten

/-- `VectorMemoryManager.get_user_profile` (vector_memory_manager.py:303-339):
read the stored profile or synthesize the default, recompute
`memory_stats.total_memories` from the loaded memories, and return it
WITHOUT writing anything.  Result: the profile and the store afterwards
(unchanged by construction, mirroring the absence of any write in the
source). -/
def get_user_profile (cfg : Config) (user_id : String) (now : Nat)
    (st : VUserStore) : VUserProfile × VUserStore :=
  let profile := st.profile.getD (vDefaultProfile cfg user_id now)
  ({ profile with total_memories := (load_user_memories st).length }, st)

/-- `VectorMemoryManager._update_user_interaction`
(vector_memory_manager.py:341-360): bump the interaction counter and the
last-interaction timestamp, merge newly extracted topics preserving
first-seen order, then write the profile.  The write sits inside its own
`try`: when it fails (`profileWriteOk = false`) the error is logged and
swallowed, and the profile file keeps its previous contents. -/
def update_user_interaction (cfg : Config) (profileWriteOk : Bool)
    (user_id : String) (now : Nat) (query response : String)
    (st : VUserStore) : VUserStore :=
  let profile := (get_user_profile cfg user_id now st).1
  let profile :=
    { profile with
      last_interaction := some now
      total_interactions := profile.total_interactions + 1 }
  let profile :=
    { profile with
      topics_of_interest :=
        (extract_topics query response).foldl
          (fun ts t => if t ∈ ts then ts else ts ++ [t])
          profile.topics_of_interest }
  if profileWriteOk then { st with profile := some profile } else st

/-- `VectorMemoryManager.store_conversation_memory`
(vector_memory_manager.py:122-182).  The oracle booleans say which
filesystem operations succeed: reading an existing conversation file
(`threadReadOk`; a parse failure raises inside the outer `try`), writing
the conversation file back (`convWriteOk`), and writing the profile
(`profileWriteOk`, swallowed inside `_update_user_interaction`).  On a
read or conversation-write failure the method returns `False` with the
store unchanged; otherwise it appends the new item to its thread, updates
the profile, and returns `True`.  Neither `max_memory_items` nor
`memory_retention_days` is consulted: no eviction and no retention
pruning happens anywhere in this method. -/
def store_conversation_memory (cfg : Config)
    (threadReadOk convWriteOk profileWriteOk : Bool)
    (user_id thread_id : String) (now : Nat) (query response : String)
    (st : VUserStore) : Bool × VUserStore :=
  let item : VMemoryItem :=
    { id := user_id ++ "_" ++ thread_id ++ "_" ++ query
      timestamp := now
      thread_id := thread_id
      query := pyStrip query
      response := pyStrip response
      query_length := query.length
      response_length := response.length
      topics := extract_topics query response }
  let threadExists := st.threads.any (fun tm => tm.1 == thread_id)
  if threadExists ∧ threadReadOk = false then (false, st)
  else if convWriteOk = false then (false, st)
  else
    let threads :=
      if threadExists then
        st.threads.map
          (fun tm => if tm.1 == thread_id then (tm.1, tm.2 ++ [item]) else tm)
      else st.threads ++ [(thread_id, [item])]
    let st := { st with threads := threads }
    (true, update_user_interaction cfg profileWriteOk user_id now query response st)

/-- `VectorMemoryManager._keyword_based_search`
(vector_memory_manager.py:260-280): score each memory whose combined
query+response word set intersects the query word set by intersection size
over union size (`mkRat overlap union` is the exact rational value of the
Python float quotient `overlap / len(union)`), stably sort by score
descending, return the first `max_results`.  No similarity threshold is
applied here. -/
def keyword_based_search (query : String) (memories : List VMemoryItem)
    (max_results : Nat) : List (VMemoryItem × ℚ) :=
  let query_words := wordSet query
  let scored := memories.filterMap (fun m =>
    let memory_words := wordSet (m.query ++ " " ++ m.response)
    let overlap := (query_words ∩ memory_words).card
    if 0 < overlap then
      some (m, mkRat overlap ((query_words ∪ memory_words).card))
    else none)
  (scored.insertionSort (fun a b => b.2 ≤ a.2)).take max_results

/-- `VectorMemoryManager.get_relevant_memories`
(vector_memory_manager.py:184-258) for a freshly constructed manager
(vectorizer flag still unset).  The TF-IDF pipeline is an external
collaborator (scikit-learn); its outcome is the argument `vectorScores`:
`none` when fitting or transforming raises (empty vocabulary, too sparse a
corpus, ...), in which case the method falls back to
`keyword_based_search`; `some scores` when it yields one cosine similarity
per loaded memory, in which case scores at or above the threshold are
kept, stably sorted descending, and truncated.  Every failure path is
caught in the source, so the embedding is a total function. -/
def get_relevant_memories (cfg : Config) (vectorScores : Option (List ℚ))
    (query : String) (st : VUserStore) (max_results : Nat) :
    List (VMemoryItem × ℚ) :=
  let memories := load_user_memories st
  if memories = [] ∨ pyStrip query = "" then []
  else
    match vectorScores with
    | none => keyword_based_search query memories max_results
    | some scores =>
        let kept := (memories.zip scores).filter
          (fun ms => cfg.similarity_threshold ≤ ms.2)
        (kept.insertionSort (fun a b => b.2 ≤ a.2)).take max_results

/-- The numbered memory lines of the history section
(vector_memory_manager.py:387-402).  `dateStr` abstracts `strftime`,
`simStr` the `%.2f` float rendering. -/
def vMemoryLines (dateStr : Nat → String) (simStr : ℚ → String) :
    Nat → List (VMemoryItem × ℚ) → List String
  | _, [] => []
  | i, (m, s) :: rest =>
      ("Memory " ++ toString i ++ " (" ++ dateStr m.timestamp ++
        ", similarity: " ++ simStr s ++ "):") ::
      ("User asked: " ++ m.query) ::
      ("Agent responded: " ++ String.mk (m.response.toList.take 200) ++ "...") ::
      vMemoryLines dateStr simStr (i + 1) rest

/-- `VectorMemoryManager.format_context_for_agent`
(vector_memory_manager.py:362-408): when there are no relevant memories
and the profile counts zero interactions, return the empty string;
otherwise emit the profile section followed by the relevant-memories
section. -/
def format_context_for_agent (cfg : Config) (vectorScores : Option (List ℚ))
    (dateStr : Nat → String) (simStr : ℚ → String) (user_id : String)
    (now : Nat) (query : String) (st : VUserStore) : String :=
  let relevant := get_relevant_memories cfg vectorScores query st 3
  let profile := (get_user_profile cfg user_id now st).1
  if relevant = [] ∧ profile.total_interactions = 0 then ""
  else
    let parts :=
      ["## User Context Information", "### User Profile",
       "- Total interactions: " ++ toString profile.total_interactions]
    let parts := parts ++
      (if profile.topics_of_interest ≠ [] then
        ["- Interests: " ++ String.intercalate ", " profile.topics_of_interest]
       else [])
    let parts := parts ++
      (if profile.preferences ≠ [] then
        ["- Preferences:"] ++
          profile.preferences.map (fun kv => "  - " ++ kv.1 ++ ": " ++ kv.2)
       else [])
    let parts := parts ++
      (if relevant ≠ [] then
        ["\n### Relevant Conversation History"] ++
          vMemoryLines dateStr simStr 1 relevant
       else [])
    String.intercalate "\n" parts

end VectorMemoryManager

/-! Helper lemmas: a stable descending insertion sort by score (the model
of Python `list.sort(key=score, reverse=True)` on a list whose order is
the stored order) yields a list ordered by score with ties resolved the
way the input was ordered. -/

/-- Ordering the ranked results are claimed to satisfy: strictly greater
score first; equal scores resolved by the more recent timestamp first. -/
def rankedRel {α β : Type} [LinearOrder β] (s : α → β) (t : α → Nat)
    (a b : α) : Prop :=
  s b < s a ∨ (s a = s b ∧ t b ≤ t a)

/-- Inserting an element no younger than every list element into a list
already ordered by `rankedRel` keeps the list so ordered. -/
theorem pairwise_orderedInsert_scored {α β : Type} [LinearOrder β]
    (s : α → β) (t : α → Nat) (x : α) (l : List α)
    (hl : l.Pairwise (rankedRel s t))
    (hx : ∀ y ∈ l, t y ≤ t x) :
    (List.orderedInsert (fun a b => s b ≤ s a) x l).Pairwise (rankedRel s t) := by
  induction l with
  | nil => simp [List.orderedInsert, rankedRel]
  | cons y ys ih =>
      rcases List.pairwise_cons.1 hl with ⟨hy, hys⟩
      by_cases h : s y ≤ s x
      · rw [List.orderedInsert, if_pos h]
        refine List.pairwise_cons.2 ⟨?_, hl⟩
        intro z hz
        have hsz : s z ≤ s x := by
          rcases List.mem_cons.1 hz with rfl | hz2
          · exact h
          · rcases hy z hz2 with h1 | h1
            · exact le_trans (le_of_lt h1) h
            · exact le_trans (le_of_eq h1.1.symm) h
        rcases lt_or_eq_of_le hsz with h1 | h1
        · exact Or.inl h1
        · exact Or.inr ⟨h1.symm, hx z hz⟩
      · rw [List.orderedInsert, if_neg h]
        push_neg at h
        refine List.pairwise_cons.2
          ⟨?_, ih hys (fun z hz => hx z (List.mem_cons_of_mem y hz))⟩
        intro z hz
        rcases (List.mem_orderedInsert _).1 hz with rfl | hz2
        · exact Or.inl h
        · exact hy z hz2

/-- Stable descending insertion sort by `s` of a list whose timestamps are
weakly decreasing is ordered by `rankedRel s t`: score descending, equal
scores most recent first. -/
theorem pairwise_insertionSort_scored {α β : Type} [LinearOrder β]
    (s : α → β) (t : α → Nat) (l : List α)
    (hl : l.Pairwise (fun a b => t b ≤ t a)) :
    (l.insertionSort (fun a b => s b ≤ s a)).Pairwise (rankedRel s t) := by
  induction l with
  | nil => simp [List.insertionSort]
  | cons x xs ih =>
      rcases List.pairwise_cons.1 hl with ⟨hx, hxs⟩
      rw [List.insertionSort]
      exact pairwise_orderedInsert_scored s t x _
        (ih hxs) (fun y hy => hx y ((List.mem_insertionSort _).1 hy))

/-- Membership in the optional scored entry the lexical ranking builds per
record. -/
theorem lex_scored_entry (query : String) (m : MemoryManager.MemoryItem)
    (p : MemoryManager.MemoryItem × Nat)
    (hp : p ∈ (if 0 < MemoryManager.score query m then
        some (m, MemoryManager.score query m) else none)) :
    p = (m, MemoryManager.score query m) ∧ 0 < MemoryManager.score query m := by
  split at hp
  · rename_i hpos
    exact ⟨(Option.mem_some_iff.1 hp).symm, hpos⟩
  · simp at hp

/-- Value of `mkRat` on two natural numbers as a quotient of casts. -/
theorem mkRat_natCast (a b : Nat) : mkRat (a : Int) b = (a : ℚ) / (b : ℚ) := by
  rw [Rat.mkRat_eq_div]
  norm_num

/-- The exact rational score the keyword fallback computes for a record is
the Jaccard similarity `jaccardSpec` of the spec. -/
theorem jaccard_source_eq (q text : String) :
    jaccardSpec q text =
      mkRat ((wordSet q ∩ wordSet text).card) ((wordSet q ∪ wordSet text).card) := by
  rw [jaccardSpec, mkRat_natCast]

/-! Concrete inputs used by the claim theorems, their witnesses and their
counterexamples. -/

/-- Vector configuration with every constructor default. -/
def vcfg : VectorMemoryManager.Config := {}

/-- Lexical configuration with every constructor default. -/
def lexcfg : MemoryManager.Config := {}

/-- Vector configuration with a size cap of one item. -/
def c1cfg : VectorMemoryManager.Config := { max_memory_items := 1 }

/-- A stored vector memory whose text is the single word "hello". -/
def vmemHello : VectorMemoryManager.VMemoryItem :=
  { id := "i1"
    timestamp := 0
    thread_id := "t"
    query := "hello"
    response := ""
    query_length := 5
    response_length := 0
    topics := [] }

/-- The same stored text five days later. -/
def vmemHello2 : VectorMemoryManager.VMemoryItem :=
  { vmemHello with id := "i2", timestamp := 5 }

/-- A user store holding `vmemHello` then `vmemHello2` in one thread, in
append (chronological) order, as the vector store writes them. -/
def c5store : VectorMemoryManager.VUserStore :=
  { threads := [("t", [vmemHello, vmemHello2])], profile := none }

/-- C1: the spec requires at most `max_memory_items` retained records per
user with oldest-first eviction, and the constructor of
`VectorMemoryManager` documents `max_memory_items` the same way, but
`store_conversation_memory` never consults it: with a cap of one item, two
successful stores leave two retained records. -/
theorem c1_vector_store_ignores_size_cap :
    c1cfg.max_memory_items = 1 ∧
    (VectorMemoryManager.load_user_memories
      (VectorMemoryManager.store_conversation_memory c1cfg true true true
        "u" "t" 1 "q2" "r2"
        (VectorMemoryManager.store_conversation_memory c1cfg true true true
          "u" "t" 0 "q1" "r1" VectorMemoryManager.vEmpty).2).2).length = 2 := by
  decide

/-- C2: the spec requires records older than `memory_retention_days` to be
pruned on the next store, and the constructor of `VectorMemoryManager`
documents the knob that way, but `store_conversation_memory` never prunes:
a record stored at day 0 is still retained after a store at day 40 with a
30-day retention window. -/
theorem c2_vector_store_ignores_retention :
    vcfg.memory_retention_days = 30 ∧
    ((VectorMemoryManager.load_user_memories
      (VectorMemoryManager.store_conversation_memory vcfg true true true
        "u" "t" 40 "q2" "r2"
        (VectorMemoryManager.store_conversation_memory vcfg true true true
          "u" "t" 0 "q1" "r1" VectorMemoryManager.vEmpty).2).2).map
        (fun m => m.timestamp)) = [0, 40] := by
  decide

/-- C3 counterexample: when the conversation write succeeds but the profile
write fails, `VectorMemoryManager.store_conversation_memory` still returns
`True` although the updated profile was not durably written — the claim
says it returns false exactly when a storage failure prevents the records
or profile from being written. -/
theorem c3_counterexample_profile_write_failure_returns_true :
    (VectorMemoryManager.store_conversation_memory vcfg true true false
      "u" "t" 0 "q1" "r1" VectorMemoryManager.vEmpty).1 = true ∧
    (VectorMemoryManager.store_conversation_memory vcfg true true false
      "u" "t" 0 "q1" "r1" VectorMemoryManager.vEmpty).2.profile = none := by
  decide

/-- C3 (amended): the success flag of
`VectorMemoryManager.store_conversation_memory` reflects exactly the
conversation-document read and write: it is `false` precisely when an
existing conversation file fails to parse or the conversation write fails,
independently of whether the profile write succeeds; and a profile write
failure is swallowed with the flag still `true`. -/
theorem c3_vector_store_flag_is_conversation_io (cfg : VectorMemoryManager.Config)
    (threadReadOk convWriteOk profileWriteOk : Bool) (u t : String)
    (now : Nat) (q r : String) (st : VectorMemoryManager.VUserStore) :
    (VectorMemoryManager.store_conversation_memory cfg
        threadReadOk convWriteOk profileWriteOk u t now q r st).1 =
      ((!(st.threads.any (fun tm => tm.1 == t)) || threadReadOk) && convWriteOk) := by
  unfold VectorMemoryManager.store_conversation_memory
  by_cases h1 : st.threads.any (fun tm => tm.1 == t) <;>
    cases threadReadOk <;> cases convWriteOk <;> simp [h1]

/-- C4 counterexample: the lexical relevance score of a record matching
its own two-word query is the intersection size 2, not the Jaccard
similarity 1 — the lexical manager divides by no union and reads only the
stored query text. -/
theorem c4_counterexample_lexical_score_not_jaccard :
    ((MemoryManager.score "alpha beta"
        { timestamp := 0, thread_id := "t", query := "alpha beta", response := "" } : ℚ)
      ≠ jaccardSpec "alpha beta" ("alpha beta" ++ " " ++ "")) := by
  have h1 : MemoryManager.score "alpha beta"
      { timestamp := 0, thread_id := "t", query := "alpha beta", response := "" } = 2 := by
    decide
  have h2 : (wordSet "alpha beta" ∩ wordSet ("alpha beta" ++ " " ++ "")).card = 2 := by
    decide
  have h3 : (wordSet "alpha beta" ∪ wordSet ("alpha beta" ++ " " ++ "")).card = 2 := by
    decide
  rw [h1, jaccardSpec, h2, h3]
  norm_num

/-- C4 (amended): every entry of the vector manager keyword fallback
carries as its score exactly the Jaccard similarity of the query word set
and the combined query+response word set of the record, and only records
whose combined word set intersects the query word set (in particular: both
word sets nonempty) are scored at all. -/
theorem c4_vector_fallback_score_is_jaccard (query : String)
    (memories : List VectorMemoryManager.VMemoryItem) (max_results : Nat)
    (p : VectorMemoryManager.VMemoryItem × ℚ)
    (hp : p ∈ VectorMemoryManager.keyword_based_search query memories max_results) :
    p.2 = jaccardSpec query (p.1.query ++ " " ++ p.1.response) ∧
    0 < (wordSet query ∩ wordSet (p.1.query ++ " " ++ p.1.response)).card := by
  unfold VectorMemoryManager.keyword_based_search at hp
  have hp2 := (List.mem_insertionSort _).1 (List.take_subset _ _ hp)
  rcases List.mem_filterMap.1 hp2 with ⟨m, hm, heq⟩
  simp only at heq
  split at heq
  · rename_i hpos
    rcases Option.some_inj.1 heq with rfl
    exact ⟨(jaccard_source_eq query (m.query ++ " " ++ m.response)).symm, hpos⟩
  · exact absurd heq (by simp)

/-- C4 witness: the fallback result for query "hello" over one record with
stored text "hello" contains that record scored 1, which is its Jaccard
similarity. -/
theorem c4_vector_fallback_jaccard_witness :
    ((vmemHello, mkRat 1 1) ∈
        VectorMemoryManager.keyword_based_search "hello" [vmemHello] 3) ∧
    (mkRat 1 1 = jaccardSpec "hello" (vmemHello.query ++ " " ++ vmemHello.response) ∧
      0 < (wordSet "hello" ∩ wordSet (vmemHello.query ++ " " ++ vmemHello.response)).card) := by
  have hp : (vmemHello, mkRat 1 1) ∈
      VectorMemoryManager.keyword_based_search "hello" [vmemHello] 3 := by decide
  exact ⟨hp, c4_vector_fallback_score_is_jaccard "hello" [vmemHello] 3 _ hp⟩

/-- C5 counterexample: in the vector manager, two records with equal
scores come back in stored (load) order, oldest first — timestamps [0, 5]
with both scores equal to 1 — where the claim requires the most recent
first. -/
theorem c5_counterexample_vector_ties_oldest_first :
    ((VectorMemoryManager.get_relevant_memories vcfg none "hello" c5store 3).map
        (fun p => (p.1.timestamp, p.2))) = [(0, mkRat 1 1), (5, mkRat 1 1)] ∧
    (0 : Nat) < 5 := by
  decide

/-- C5 (amended): over a newest-first stored list (the order the lexical
store maintains), the lexical `get_relevant_memories` returns at most
`max_results` records; its underlying ranked list is ordered by score
descending with equal scores most recent first; every ranked entry is a
stored record carrying its positive overlap score; and every stored
record with zero score is omitted from the result. -/
theorem c5_lexical_rank_sorted_bounded (query : String)
    (memories : List MemoryManager.MemoryItem) (max_results : Nat)
    (hnew : memories.Pairwise (fun a b => b.timestamp ≤ a.timestamp)) :
    (MemoryManager.get_relevant_memories query memories max_results).length ≤ max_results ∧
    (MemoryManager.rank query memories max_results).Pairwise
      (rankedRel Prod.snd (fun p : MemoryManager.MemoryItem × Nat => p.1.timestamp)) ∧
    (∀ p ∈ MemoryManager.rank query memories max_results,
        p.1 ∈ memories ∧ p.2 = MemoryManager.score query p.1 ∧ 0 < p.2) ∧
    (∀ m ∈ memories, MemoryManager.score query m = 0 →
        m ∉ MemoryManager.get_relevant_memories query memories max_results) := by
  have hentry : ∀ p ∈ MemoryManager.rank query memories max_results,
      p.1 ∈ memories ∧ p.2 = MemoryManager.score query p.1 ∧ 0 < p.2 := by
    intro p hp
    unfold MemoryManager.rank at hp
    have hp2 := (List.mem_insertionSort _).1 (List.take_subset _ _ hp)
    rcases List.mem_filterMap.1 hp2 with ⟨m, hm, heq⟩
    simp only at heq
    rcases lex_scored_entry query m p heq with ⟨rfl, hpos⟩
    exact ⟨hm, rfl, hpos⟩
  refine ⟨?_, ?_, hentry, ?_⟩
  · unfold MemoryManager.get_relevant_memories
    rw [List.length_map]
    exact List.length_take_le _ _
  · unfold MemoryManager.rank
    refine List.Pairwise.sublist (List.take_sublist _ _) ?_
    refine pairwise_insertionSort_scored Prod.snd
      (fun p : MemoryManager.MemoryItem × Nat => p.1.timestamp) _ ?_
    refine List.Pairwise.filterMap _ ?_ hnew
    intro a a' hts p hp p' hp'
    rcases lex_scored_entry query a p hp with ⟨rfl, _⟩
    rcases lex_scored_entry query a' p' hp' with ⟨rfl, _⟩
    exact hts
  · intro m hm hscore hmem
    unfold MemoryManager.get_relevant_memories at hmem
    rcases List.mem_map.1 hmem with ⟨p, hp, hfst⟩
    rcases hentry p hp with ⟨_, hsc, hpos⟩
    rw [hfst, hscore] at hsc
    rw [hsc] at hpos
    exact lt_irrefl 0 hpos

/-- A newest-first stored list for the C5 witness: a two-word match at
day 2, a one-word match at day 1, a non-matching record at day 0. -/
def c5mems : List MemoryManager.MemoryItem :=
  [{ timestamp := 2, thread_id := "t", query := "alpha beta", response := "" },
   { timestamp := 1, thread_id := "t", query := "alpha", response := "" },
   { timestamp := 0, thread_id := "t", query := "gamma", response := "" }]

/-- C5 witness: the amended ranking properties evaluated on `c5mems` for
the query "alpha beta". -/
theorem c5_lexical_rank_witness :
    (MemoryManager.get_relevant_memories "alpha beta" c5mems 3).length ≤ 3 ∧
    (MemoryManager.rank "alpha beta" c5mems 3).Pairwise
      (rankedRel Prod.snd (fun p : MemoryManager.MemoryItem × Nat => p.1.timestamp)) ∧
    (∀ p ∈ MemoryManager.rank "alpha beta" c5mems 3,
        p.1 ∈ c5mems ∧ p.2 = MemoryManager.score "alpha beta" p.1 ∧ 0 < p.2) ∧
    (∀ m ∈ c5mems, MemoryManager.score "alpha beta" m = 0 →
        m ∉ MemoryManager.get_relevant_memories "alpha beta" c5mems 3) :=
  c5_lexical_rank_sorted_bounded "alpha beta" c5mems 3 (by decide)

/-- C6 counterexample: the lexical `format_context_for_agent` on a user
with no stored records and no profile history returns the header-only
block, not the empty string. -/
theorem c6_counterexample_lexical_header_only_block :
    (MemoryManager.format_context_for_agent (fun _ => "") "u" 0 "q"
        MemoryManager.emptyStore).1 = "## User Context Information" ∧
    "## User Context Information" ≠ "" := by
  decide

/-- C6 (amended): the vector `format_context_for_agent` returns the empty
string whenever there are no relevant memories for the query and the
profile reports zero interactions — in particular for every user with zero
stored records. -/
theorem c6_vector_empty_context (cfg : VectorMemoryManager.Config)
    (vectorScores : Option (List ℚ)) (dateStr : Nat → String)
    (simStr : ℚ → String) (u : String) (now : Nat) (q : String)
    (st : VectorMemoryManager.VUserStore)
    (hrel : VectorMemoryManager.get_relevant_memories cfg vectorScores q st 3 = [])
    (hint : (VectorMemoryManager.get_user_profile cfg u now st).1.total_interactions = 0) :
    VectorMemoryManager.format_context_for_agent cfg vectorScores dateStr simStr
      u now q st = "" := by
  simp only [VectorMemoryManager.format_context_for_agent]
  rw [hrel, hint]
  simp

/-- C6 witness: the empty store yields the empty context string. -/
theorem c6_vector_empty_context_witness :
    VectorMemoryManager.format_context_for_agent vcfg none (fun _ => "")
      (fun _ => "") "u" 0 "q" VectorMemoryManager.vEmpty = "" :=
  c6_vector_empty_context vcfg none (fun _ => "") (fun _ => "") "u" 0 "q"
    VectorMemoryManager.vEmpty (by decide) (by decide)

/-- C7 counterexample: the lexical `get_user_profile` on a user with no
persisted profile does NOT leave the store unchanged — it writes the
synthesized default profile to the profile file. -/
theorem c7_counterexample_lexical_profile_read_writes :
    (MemoryManager.get_user_profile "u" 7 MemoryManager.emptyStore).2 ≠
      MemoryManager.emptyStore := by
  decide

/-- C7 (amended): the vector `get_user_profile` on a user with no
persisted profile returns the synthesized default profile (zero
interactions, empty preferences and topics, memory count recomputed) and
leaves the store unchanged. -/
theorem c7_vector_profile_read_is_pure (cfg : VectorMemoryManager.Config)
    (u : String) (now : Nat) (st : VectorMemoryManager.VUserStore)
    (h : st.profile = none) :
    VectorMemoryManager.get_user_profile cfg u now st =
      ({ VectorMemoryManager.vDefaultProfile cfg u now with
          total_memories := (VectorMemoryManager.load_user_memories st).length },
        st) := by
  unfold VectorMemoryManager.get_user_profile
  rw [h]
  rfl

/-- C7 witness: reading the profile of the empty store yields the default
profile and the unchanged empty store. -/
theorem c7_vector_profile_read_witness :
    VectorMemoryManager.get_user_profile vcfg "u" 5 VectorMemoryManager.vEmpty =
      ({ VectorMemoryManager.vDefaultProfile vcfg "u" 5 with total_memories := 0 },
        VectorMemoryManager.vEmpty) := by
  have h := c7_vector_profile_read_is_pure vcfg "u" 5 VectorMemoryManager.vEmpty rfl
  simpa [VectorMemoryManager.load_user_memories, VectorMemoryManager.vEmpty] using h

/-- C8: when the TF-IDF pipeline yields no scores (fit or transform
raised, as with an empty or too sparse corpus), the vector
`get_relevant_memories` deterministically returns the keyword fallback
result — the empty list when there are no stored memories or the query is
blank — and, being a total function of its inputs, raises nothing. -/
theorem c8_vector_fit_failure_falls_back (cfg : VectorMemoryManager.Config)
    (q : String) (st : VectorMemoryManager.VUserStore) (maxr : Nat) :
    VectorMemoryManager.get_relevant_memories cfg none q st maxr =
      (if VectorMemoryManager.load_user_memories st = [] ∨ pyStrip q = "" then []
       else VectorMemoryManager.keyword_based_search q
         (VectorMemoryManager.load_user_memories st) maxr) := by
  rfl

/-- Scenario driver for C9: a number of successive fully successful vector
stores of ("q", "r") to thread "t" for user "u", one per day. -/
def iterateStores (cfg : VectorMemoryManager.Config) :
    Nat → VectorMemoryManager.VUserStore → VectorMemoryManager.VUserStore
  | 0, st => st
  | k + 1, st =>
      (VectorMemoryManager.store_conversation_memory cfg true true true
        "u" "t" k "q" "r" (iterateStores cfg k st)).2

/-- Vector configuration with the size cap of the C9 scenario. -/
def c9cfg : VectorMemoryManager.Config := { max_memory_items := 50 }

/-- A persisted lexical profile with seven recorded interactions. -/
def c9profile : MemoryManager.UserProfile :=
  { user_id := "u"
    created_at := 0
    last_interaction := none
    total_interactions := 7
    preferences := []
    topics_of_interest := [] }

/-- C9 counterexample: the lexical `store_conversation_memory` does not
touch the profile at all — a store on a user whose persisted counter reads
7 leaves the persisted profile exactly as it was, where the claim requires
the counter to become 8. -/
theorem c9_counterexample_lexical_store_profile_unchanged :
    (MemoryManager.store_conversation_memory lexcfg 1 "t" "q" "r" []
        { memories := [], profile := some c9profile }).profile = some c9profile := by
  decide

/-- C9 (amended): every successful vector store increments the persisted
total-interaction counter by exactly one (so the counter never shrinks),
and after 60 successful stores with a size cap of 50 the profile reports
60 interactions — while all 60 records are retained, the cap never being
applied (see C1). -/
theorem c9_vector_counter_increments_no_cap :
    (∀ (cfg : VectorMemoryManager.Config) (u t : String) (now : Nat)
        (q r : String) (st : VectorMemoryManager.VUserStore),
      ((VectorMemoryManager.store_conversation_memory cfg true true true
          u t now q r st).2.profile.map (fun p => p.total_interactions)).getD 0 =
        ((st.profile.map (fun p => p.total_interactions)).getD 0) + 1) ∧
    c9cfg.max_memory_items = 50 ∧
    ((iterateStores c9cfg 60 VectorMemoryManager.vEmpty).profile.map
        (fun p => p.total_interactions)) = some 60 ∧
    (VectorMemoryManager.load_user_memories
        (iterateStores c9cfg 60 VectorMemoryManager.vEmpty)).length = 60 := by
  refine ⟨?_, by decide, by set_option maxRecDepth 10000 in decide⟩
  intro cfg u t now q r st
  unfold VectorMemoryManager.store_conversation_memory
  simp only [Bool.true_eq_false, and_false, if_false, ite_false]
  cases h : st.profile <;>
    simp [VectorMemoryManager.update_user_interaction,
      VectorMemoryManager.get_user_profile,
      VectorMemoryManager.vDefaultProfile, h]

/-- C10: the lexical `update_user_profile` with an empty interaction dict
persists exactly the profile the read yields (the stored profile, or the
synthesized default) with the counter incremented by one and the
last-interaction timestamp set to now; every other profile field and the
memory list are unchanged. -/
theorem c10_lexical_update_profile_empty_data (u : String) (now : Nat)
    (st : MemoryManager.UserStore) :
    MemoryManager.update_user_profile u now ⟨none, none⟩ st =
      { st with
          profile := some
            { (MemoryManager.get_user_profile u now st).1 with
                last_interaction := some now
                total_interactions :=
                  (MemoryManager.get_user_profile u now st).1.total_interactions + 1 } } := by
  unfold MemoryManager.update_user_profile MemoryManager.get_user_profile
  cases h : st.profile <;> simp [h]
